import Mathlib

/-!
Verification of the Forum-Website server core against its specification.

The definitions below are a shallow embedding of the server's data model and
request handlers:

* the SQLite schema `db.sql` becomes the record types `User`, `Post`,
  `Comment`, `Flag` and the database state `DB`;
* the data-access layer (`dao.js`, `dao-user.js`) becomes pure functions on
  `DB`; SQL `WHERE`/`ORDER BY`/constraint behaviour is modelled row by row
  (a `DELETE`/`UPDATE` touches every row matching its `WHERE` clause, the
  `ON DELETE CASCADE` clauses of `db.sql` remove dependent rows, a violated
  `PRIMARY KEY`/`FOREIGN KEY` constraint makes the statement fail with the
  SQLite error message);
* the Express routes of `index.js` become functions from a database state and
  request data to an HTTP status plus the new database state.  The session
  user (`req.user`) is the row passport deserialises; `req.session.method`
  is the session's authentication-method string, set to "totp" only by a
  successful second-factor login.

External effects are parameters: the scrypt password hash and the TOTP
verifier are taken as function arguments, never interpreted.
-/

namespace Forum

/-- A row of the `users` table (db.sql): id, unique username, password salt and
scrypt hash (hex), TOTP shared secret (`TEXT NOT NULL`, so an absent secret is
stored as the empty string), admin flag. -/
structure User where
  id : Nat
  username : String
  salt : String
  password : String
  secret : String
  admin : Bool
deriving Repr, DecidableEq

/-- A row of the `posts` table (db.sql): unique title, owning `userId`
(`NOT NULL`), text, nullable `maxComments`, creation date. -/
structure Post where
  id : Nat
  title : String
  userId : Nat
  text : String
  maxComments : Option Nat
  date : String
deriving Repr, DecidableEq

/-- A row of the `comments` table (db.sql): nullable `userId` (an anonymous
comment stores NULL), `postId` `NOT NULL` with `ON DELETE CASCADE`. -/
structure Comment where
  id : Nat
  text : String
  date : String
  userId : Option Nat
  postId : Nat
deriving Repr, DecidableEq

/-- A row of the `interesting_flags` table (db.sql):
`PRIMARY KEY (userId, commentId)`, `commentId` has `ON DELETE CASCADE`. -/
structure Flag where
  userId : Nat
  commentId : Nat
deriving Repr, DecidableEq

/-- The database state: the four tables of db.sql. -/
structure DB where
  users : List User
  posts : List Post
  comments : List Comment
  flags : List Flag
deriving Repr, DecidableEq

/-- The user object the user DAO resolves (`{id, username, admin, secret}`,
without salt and password hash); it is also what passport stores in
`req.user` after deserialisation. -/
structure UserInfo where
  id : Nat
  username : String
  admin : Bool
  secret : String
deriving Repr, DecidableEq

/-- Projection of a `users` row to the DAO's user object. -/
def userInfoOf (u : User) : UserInfo :=
  { id := u.id, username := u.username, admin := u.admin, secret := u.secret }

/-- dao-user.js `getUserById`: `SELECT * FROM users WHERE id = ?`.  `none`
models the row being absent (the JS resolves an `{ error }` object then). -/
def getUserById (db : DB) (id : Nat) : Option UserInfo :=
  (db.users.find? (fun u => u.id == id)).map userInfoOf

/-- dao-user.js `getUser`: looks the row up by exact username, recomputes the
scrypt hash of the supplied password with the stored salt and compares it to
the stored hash.  `scrypt password salt` stands for the external
`crypto.scrypt` call (hex output); `none` models `resolve(false)`, returned
both for an unknown username and for a wrong password. -/
def getUser (scrypt : String → String → String) (db : DB)
    (username password : String) : Option UserInfo :=
  match db.users.find? (fun u => u.username == username) with
  | none => none
  | some row =>
    if scrypt password row.salt == row.password then some (userInfoOf row)
    else none

/-- The JS `userId` argument of `dao.getCommentsByPostId`: the route for
reading comments passes a number or `null`, while the comment-creation route
omits the argument entirely, so the DAO sees `undefined`. -/
inductive ReqUser where
  | undef
  | null
  | id (n : Nat)
deriving Repr, DecidableEq

/-- One row of the comment query's result set, after the JS mapping
(`username: row.username || null`, `userId: row.userId || null`,
`markedByMe: row.markedByMe ? true : false`). -/
structure CommentView where
  id : Nat
  text : String
  date : String
  username : Option String
  userId : Option Nat
  interestingCount : Nat
  markedByMe : Bool
deriving Repr, DecidableEq

/-- JS `x || null` on a nullable number: `0` is falsy and becomes null. -/
def jsOrNullNat : Option Nat → Option Nat
  | some 0 => none
  | v => v

/-- JS `x || null` on a nullable string: `""` is falsy and becomes null. -/
def jsOrNullStr : Option String → Option String
  | some "" => none
  | v => v

/-- The `markedByMe` column of the comment query: when the JS argument is a
number the SQL is `EXISTS(SELECT 1 FROM interesting_flags WHERE commentId =
comments.id AND userId = ?)`; when it is `null` the SQL is the literal
`0 AS markedByMe`; when it is `undefined` the same EXISTS subquery runs but
the parameter binds to SQL NULL, and `userId = NULL` matches no row. -/
def markedByMeOf (db : DB) (req : ReqUser) (c : Comment) : Bool :=
  match req with
  | .id n => db.flags.any (fun f => f.commentId == c.id && f.userId == n)
  | .null => false
  | .undef => false

/-- One result row of dao.js `getCommentsByPostId`: LEFT JOIN with `users` for
the username, a correlated COUNT over `interesting_flags`, `markedByMe`, then
the JS row mapping. -/
def commentView (db : DB) (req : ReqUser) (c : Comment) : CommentView :=
  { id := c.id
    text := c.text
    date := c.date
    username := jsOrNullStr (match c.userId with
      | none => none
      | some uid => (db.users.find? (fun u => u.id == uid)).map (fun u => u.username))
    userId := jsOrNullNat c.userId
    interestingCount := (db.flags.filter (fun f => f.commentId == c.id)).length
    markedByMe := markedByMeOf db req c }

/-- `ORDER BY comments.date DESC`: a date-descending comparison on the stored
`YYYY-MM-DD HH:mm:ss` strings (lexicographic order on that format is
chronological order). -/
def commentDateDesc (a b : Comment) : Bool :=
  decide (b.date ≤ a.date)

/-- dao.js `getCommentsByPostId postId userId`: selects the comments of the
post, adds `AND comments.userId IS NULL` exactly when the JS argument is
`null` (`userId === null`; `undefined` does NOT add the filter), orders by
date descending, and maps each row to its `CommentView`. -/
def getCommentsByPostId (db : DB) (postId : Nat) (req : ReqUser) : List CommentView :=
  let rows := db.comments.filter (fun c =>
    c.postId == postId && (match req with | .null => c.userId == none | _ => true))
  (rows.mergeSort commentDateDesc).map (commentView db req)

/-- dao.js `getPost`: `FROM posts JOIN users ON posts.userId = users.id WHERE
posts.id = ?`; `none` models the `{ error: "Post not found." }` outcome. -/
def getPost (db : DB) (id : Nat) : Option Post :=
  match db.posts.find? (fun p => p.id == id) with
  | none => none
  | some p => if db.users.any (fun u => u.id == p.userId) then some p else none

/-- `req.session.method === "totp" && req.user.admin`, the per-route
elevation check of index.js. -/
def isAdminTotp (method : String) (u : UserInfo) : Bool :=
  method == "totp" && u.admin

/-- dao.js `updateComment`: `UPDATE comments SET text = ? WHERE id = ?`
with `AND userId = ?` added unless the caller is an admin with TOTP.
Returns `this.changes` (rows matching the WHERE clause) and the new state.
For a non-elevated caller `userId = ?` compares against the comment's
`userId` column; SQL equality with NULL is never true, so an anonymous
comment never matches. -/
def updateComment (db : DB) (commentId : Nat) (newText : String) (userId : Nat)
    (isTotp : Bool) : Nat × DB :=
  let hit : Comment → Bool := fun c =>
    c.id == commentId && (isTotp || c.userId == some userId)
  let changes := (db.comments.filter hit).length
  (changes,
   { db with comments := db.comments.map (fun c =>
       if hit c then { c with text := newText } else c) })

/-- dao.js `deleteComment`: `DELETE FROM comments WHERE id = ?` with
`AND userId = ?` added unless the caller is an admin with TOTP.  The
`interesting_flags.commentId` foreign key has `ON DELETE CASCADE` and
`PRAGMA foreign_keys = ON`, so flags of a deleted comment go with it.
Returns `this.changes` (deleted `comments` rows only) and the new state. -/
def deleteComment (db : DB) (commentId : Nat) (userId : Nat) (isTotp : Bool) :
    Nat × DB :=
  let hit : Comment → Bool := fun c =>
    c.id == commentId && (isTotp || c.userId == some userId)
  let removedIds := (db.comments.filter hit).map (fun c => c.id)
  (( db.comments.filter hit).length,
   { db with
     comments := db.comments.filter (fun c => !(hit c))
     flags := db.flags.filter (fun f => !(removedIds.contains f.commentId)) })

/-- dao.js `deletePost`: `DELETE FROM posts WHERE id = ?` with
`AND userId = ?` added unless the caller is an admin with TOTP.  The
`comments.postId` foreign key cascades, and flags of the cascaded comments
cascade in turn.  Returns `this.changes` (deleted `posts` rows only). -/
def deletePost (db : DB) (postId : Nat) (userId : Nat) (isTotp : Bool) :
    Nat × DB :=
  let hit : Post → Bool := fun p =>
    p.id == postId && (isTotp || p.userId == userId)
  let removedPostIds := (db.posts.filter hit).map (fun p => p.id)
  let removedCommentIds :=
    (db.comments.filter (fun c => removedPostIds.contains c.postId)).map (fun c => c.id)
  ((db.posts.filter hit).length,
   { db with
     posts := db.posts.filter (fun p => !(hit p))
     comments := db.comments.filter (fun c => !(removedPostIds.contains c.postId))
     flags := db.flags.filter (fun f => !(removedCommentIds.contains f.commentId)) })

/-- The message node-sqlite3 rejects with when the
`PRIMARY KEY (userId, commentId)` of `interesting_flags` is violated. -/
def uniqueFlagFailMsg : String :=
  "SQLITE_CONSTRAINT: UNIQUE constraint failed: interesting_flags.userId, interesting_flags.commentId"

/-- The message node-sqlite3 rejects with on a foreign-key violation. -/
def fkFailMsg : String :=
  "SQLITE_CONSTRAINT: FOREIGN KEY constraint failed"

/-- dao.js `markCommentAsInteresting`: `INSERT INTO interesting_flags
(commentId, userId) VALUES (?, ?)`.  A duplicate (userId, commentId) pair
violates the primary key and the promise rejects with the raw SQLite error;
a dangling user or comment reference violates a foreign key.  On success the
row is appended. -/
def markCommentAsInteresting (db : DB) (commentId : Nat) (userId : Nat) :
    Except String DB :=
  if db.flags.any (fun f => f.userId == userId && f.commentId == commentId) then
    .error uniqueFlagFailMsg
  else if !(db.users.any (fun u => u.id == userId)) ||
          !(db.comments.any (fun c => c.id == commentId)) then
    .error fkFailMsg
  else
    .ok { db with flags := db.flags ++ [{ userId := userId, commentId := commentId }] }

/-!
Route handlers (index.js).  Each takes the session user passport resolved
(`req.user`; the routes run behind `isLoggedIn`, so it is present) and the
session's method string.  The per-route `await userDao.getUserById(...)`
guard `if (!user) return 404` never fires: the DAO resolves either a user
object or an `{ error }` object, and both are truthy in JS, so the guard is
not part of the model's control flow.
-/

/-- `POST /api/comments/:id/interesting`: marks the comment and maps a DAO
rejection to 409 exactly when its message is the string "Already marked",
and to 503 otherwise. -/
def markInterestingApi (db : DB) (sessionUser : UserInfo) (commentId : Nat) :
    Nat × DB :=
  match markCommentAsInteresting db commentId sessionUser.id with
  | .ok db2 => (200, db2)
  | .error msg => if msg == "Already marked" then (409, db) else (503, db)

/-- `PUT /api/comments/:id`: runs `dao.updateComment` and returns 403 when the
DAO reports zero changed rows (`{ error: "Comment not found or not owned by
user" }`), 200 otherwise. -/
def updateCommentApi (db : DB) (sessionUser : UserInfo) (method : String)
    (commentId : Nat) (newText : String) : Nat × DB :=
  let r := updateComment db commentId newText sessionUser.id (isAdminTotp method sessionUser)
  (if r.1 == 0 then 403 else 200, r.2)

/-- `DELETE /api/comments/:id`: runs `dao.deleteComment` and returns 403 when
zero rows were deleted ("Not allowed or comment not found"), 200 otherwise. -/
def deleteCommentApi (db : DB) (sessionUser : UserInfo) (method : String)
    (commentId : Nat) : Nat × DB :=
  let r := deleteComment db commentId sessionUser.id (isAdminTotp method sessionUser)
  (if r.1 == 0 then 403 else 200, r.2)

/-- `DELETE /api/posts/:id`: runs `dao.deletePost` and returns 403 when zero
rows were deleted ("Not allowed or post not found"), 200 otherwise. -/
def deletePostApi (db : DB) (sessionUser : UserInfo) (method : String)
    (postId : Nat) : Nat × DB :=
  let r := deletePost db postId sessionUser.id (isAdminTotp method sessionUser)
  (if r.1 == 0 then 403 else 200, r.2)

/-- `POST /api/posts/:id/comments`: fetches the post (404 if absent), fetches
the post's comments with the `userId` argument OMITTED (so the DAO sees
`undefined`, not `null`), rejects with 403 when `maxComments` is non-null and
the fetched list is already at or above it, and otherwise inserts the comment
with the requester (or NULL) as owner.  `newId` and `now` stand for the
autoincrement id and `DATETIME('now')` of the insert. -/
def createCommentApi (db : DB) (requester : Option Nat) (postId : Nat)
    (text : String) (newId : Nat) (now : String) : Nat × DB :=
  match getPost db postId with
  | none => (404, db)
  | some post =>
    let currentComments := getCommentsByPostId db postId ReqUser.undef
    if (match post.maxComments with
        | some m => decide (m ≤ currentComments.length)
        | none => false) then
      (403, db)
    else
      (201, { db with comments := db.comments ++
        [{ id := newId, text := text, date := now, userId := requester, postId := postId }] })

/-- JS `String.prototype.trim`: strips leading and trailing whitespace. -/
def jsTrim (s : String) : String :=
  String.mk (((s.data.dropWhile Char.isWhitespace).reverse.dropWhile Char.isWhitespace).reverse)

/-- validator.js `isNumeric` with default options: the string must match
`[+-]?([0-9]*[.])?[0-9]+` — an optional sign, an optional integer part ended
by one decimal point, and a non-empty run of digits. -/
def isNumericStr (s : String) : Bool :=
  let cs := match s.data with
    | c :: rest => if c == '+' || c == '-' then rest else c :: rest
    | [] => []
  let intPart := cs.takeWhile (fun c => !(c == '.'))
  match cs.dropWhile (fun c => !(c == '.')) with
  | [] => !cs.isEmpty && cs.all Char.isDigit
  | _ :: frac => intPart.all Char.isDigit && !frac.isEmpty && frac.all Char.isDigit

/-- The malformed-code test of `POST /api/login-totp`:
`!req.body.code || !validator.isNumeric(req.body.code.trim())` — the code is
absent, empty, or not numeric after trimming. -/
def totpCodeMalformed (code : Option String) : Bool :=
  match code with
  | none => true
  | some s => s == "" || !(isNumericStr (jsTrim s))

/-- `POST /api/login-totp`: after `isLoggedIn`, the route returns 403 when the
session user is not an admin, 403 when the user's secret is falsy (the empty
string), 422 when the code is missing or non-numeric; otherwise
`passport.authenticate("totp")` verifies the trimmed code against the user's
secret (`verify` stands for that external check): on success the session
method becomes "totp" and the route answers 200, on failure passport answers
401.  The result is the HTTP status and the session's method afterwards. -/
def loginTotpApi (verify : String → String → Bool) (sessionUser : UserInfo)
    (method : String) (code : Option String) : Nat × String :=
  if !sessionUser.admin then (403, method)
  else if sessionUser.secret == "" then (403, method)
  else if totpCodeMalformed code then (422, method)
  else match code with
    | none => (422, method)
    | some s =>
      if verify sessionUser.secret (jsTrim s) then (200, "totp")
      else (401, method)

/-- The specification's precondition on a second-factor code, transcribed from
the spec's words ("exactly 6 numeric digits") for comparison with the code's
`totpCodeMalformed` test; it is NOT part of the source embedding. -/
def specSixDigitCode (s : String) : Bool :=
  s.length == 6 && s.all Char.isDigit

end Forum

namespace Forum

/-!
Concrete fixtures.  The three users are rows of the seed data in db.sql;
the posts and comments are small request-level test data.
-/

/-- Seed row 1 of `users` (db.sql): the admin "alberto", with a TOTP secret. -/
def alberto : User :=
  { id := 1, username := "alberto", salt := "123348dusd437840",
    password := "451f285506c0b237317244eb8fb57ea736cb9693b4b329e300bcfec4d63485ca",
    secret := "LXBSMDTMSP2I5XFXIYRGFVWSFI", admin := true }

/-- Seed row 3 of `users` (db.sql): "carl", not an admin, empty secret. -/
def carl : User :=
  { id := 3, username := "carl", salt := "wgb32sge2sh7hse7",
    password := "c56467cd69169df291e9267ebde0bc152a8e822ee0ca38944bb901ed0a720708",
    secret := "", admin := false }

/-- Seed row 4 of `users` (db.sql): "diana", not an admin, empty secret. -/
def diana : User :=
  { id := 4, username := "diana", salt := "safd6523tdwt82et",
    password := "0cd67adcdcd0b48c2441c10c53e476036ffd263f63f1c855fd06e0767b65c145",
    secret := "", admin := false }

/-- Session user for alberto. -/
def albertoInfo : UserInfo := userInfoOf alberto

/-- Session user for carl. -/
def carlInfo : UserInfo := userInfoOf carl

/-- Session user for diana. -/
def dianaInfo : UserInfo := userInfoOf diana

/-- A post of alberto's with `maxComments = 4`. -/
def postA : Post :=
  { id := 1, title := "The Quantum Leap in Computing", userId := 1,
    text := "quantum", maxComments := some 4, date := "2015-01-01 10:21:27" }

/-- A post of carl's with `maxComments = 1`, already holding one comment. -/
def postB : Post :=
  { id := 2, title := "Deciphering Dark Matter", userId := 3,
    text := "dark", maxComments := some 1, date := "2013-01-02 09:53:01" }

/-- A post of carl's with `maxComments = NULL`. -/
def postC : Post :=
  { id := 3, title := "The Ethical Dilemmas of AI", userId := 3,
    text := "ethics", maxComments := none, date := "2014-01-03 19:44:02" }

/-- Carl's comment on `postA`. -/
def commentA : Comment :=
  { id := 1, text := "Absolutely fascinating!", date := "2015-12-01 11:21:27",
    userId := some 3, postId := 1 }

/-- An anonymous comment on `postA`. -/
def commentB : Comment :=
  { id := 2, text := "Great points raised here.", date := "2015-10-04 14:44:56",
    userId := none, postId := 1 }

/-- Diana's comment on `postB`. -/
def commentC : Comment :=
  { id := 3, text := "Well done.", date := "2015-11-01 00:00:00",
    userId := some 4, postId := 2 }

/-- A database state: three users, three posts, three comments, and alberto's
interesting flag on `commentA`. -/
def db0 : DB :=
  { users := [alberto, carl, diana], posts := [postA, postB, postC],
    comments := [commentA, commentB, commentC],
    flags := [{ userId := 1, commentId := 1 }] }

/-- `db0` before any flag was placed. -/
def dbNoFlag : DB := { db0 with flags := [] }

/-- A stand-in for the external scrypt hash, used to exercise `getUser`. -/
def hashFn : String → String → String := fun password salt => password ++ "|" ++ salt

/-- A user row whose stored hash matches password "secret1" under `hashFn`. -/
def userA : User :=
  { id := 7, username := "alice", salt := "s1", password := "secret1|s1",
    secret := "", admin := false }

/-- A one-user database for the credential-verifier theorems. -/
def dbAuth : DB := { users := [userA], posts := [], comments := [], flags := [] }

end Forum

namespace Forum

/-- C1: the server cannot answer 409 on a duplicate interesting-mark.  In a
state where user 1 has not yet flagged comment 1, the first mark succeeds
(200) and appends one flag row; repeating the same mark makes the insert
violate the `interesting_flags` primary key, the DAO rejects with the raw
SQLite constraint message — never the literal "Already marked" the route
compares against — so the route answers 503, the generic persistence
failure, not the 409 conflict.  The flag count is left at one. -/
theorem C1_duplicate_mark_answers_503_not_409 :
  (markInterestingApi dbNoFlag albertoInfo 1).1 = 200 ∧
  (markInterestingApi dbNoFlag albertoInfo 1).2.flags.length = dbNoFlag.flags.length + 1 ∧
  markInterestingApi (markInterestingApi dbNoFlag albertoInfo 1).2 albertoInfo 1
    = (503, (markInterestingApi dbNoFlag albertoInfo 1).2) ∧
  (503 : Nat) ≠ 409 := by
  refine ⟨rfl, rfl, ?_, by decide⟩
  decide

/-- C2 counterexample: "12345" is not a 6-digit code, yet `POST
/api/login-totp` does not reject it before TOTP verification: for an admin
with a secret, the outcome depends on the external TOTP verifier (200 and an
elevated session when the verifier accepts, 401 when it rejects), so the
stored secret IS consulted. -/
theorem C2_counterexample_five_digit_code_reaches_verifier :
  specSixDigitCode "12345" = false ∧
  loginTotpApi (fun _ _ => true) albertoInfo "session" (some "12345") = (200, "totp") ∧
  loginTotpApi (fun _ _ => false) albertoInfo "session" (some "12345") = (401, "session") := by
  refine ⟨by decide, ?_, ?_⟩ <;> decide

/-- C2 amended: the pre-verification rejection covers exactly the missing,
empty or non-numeric codes (`!req.body.code || !validator.isNumeric(...)`),
not all non-6-digit codes: for an admin with a secret, such a code is
answered 422 whatever the TOTP verifier would say (the verifier is
universally quantified, so it is not consulted), and the session method is
unchanged. -/
theorem C2_amended_malformed_code_rejected_before_verification
    (verify : String → String → Bool) (u : UserInfo) (m : String)
    (code : Option String) (hadmin : u.admin = true) (hsecret : u.secret ≠ "")
    (hbad : totpCodeMalformed code = true) :
    loginTotpApi verify u m code = (422, m) := by
  have hs : (u.secret == "") = false := by
    cases hs : u.secret == "" with
    | true => exact absurd (by simpa using hs) hsecret
    | false => rfl
  simp [loginTotpApi, hadmin, hs, hbad]

/-- Witness for the amended C2 at a concrete input: a non-numeric code is
answered 422 with the session left as it was. -/
theorem C2_amended_witness :
    loginTotpApi (fun _ _ => true) albertoInfo "session" (some "abc") = (422, "session") :=
  C2_amended_malformed_code_rejected_before_verification
    (fun _ _ => true) albertoInfo "session" (some "abc")
    (by decide) (by decide) (by decide)

/-- C7: second-factor completion by a session user who is not an admin, or
who has no secret (the empty string), is answered 403 whatever the submitted
code is and whatever the TOTP verifier would say, and the session method —
hence the privilege level — is unchanged (in particular still not "totp"). -/
theorem C7_totp_denied_for_non_admin_or_no_secret
    (verify : String → String → Bool) (u : UserInfo) (m : String)
    (code : Option String) (h : u.admin = false ∨ u.secret = "")
    (hm : m ≠ "totp") :
    loginTotpApi verify u m code = (403, m) ∧
    (loginTotpApi verify u m code).2 ≠ "totp" := by
  have hres : loginTotpApi verify u m code = (403, m) := by
    rcases h with h | h
    · simp [loginTotpApi, h]
    · cases hAdm : u.admin <;> simp [loginTotpApi, hAdm, h]
  exact ⟨hres, by rw [hres]; exact hm⟩

/-- Witness for C7: carl (no admin rights, no secret) submits a valid-looking
6-digit code and is answered 403 with the session left standard. -/
theorem C7_witness :
    loginTotpApi (fun _ _ => true) carlInfo "session" (some "123456") = (403, "session") :=
  (C7_totp_denied_for_non_admin_or_no_secret (fun _ _ => true) carlInfo "session"
    (some "123456") (Or.inl (by decide)) (by decide)).1

end Forum

namespace Forum

/-- Splitting a WHERE clause `id-match AND auth-match`: when exactly one row
matches the id part, the full clause keeps that row or nothing, depending on
the auth part. -/
theorem filter_and_singleton {α : Type} {l : List α} {a : α} {pA : α → Bool}
    (q : α → Bool) (h : l.filter pA = [a]) :
    l.filter (fun x => pA x && q x) = if q a then [a] else [] := by
  have hcomm : l.filter (fun x => pA x && q x) = l.filter (fun x => q x && pA x) :=
    List.filter_congr (fun x _ => Bool.and_comm _ _)
  rw [hcomm, ← List.filter_filter, h]
  cases hq : q a <;> simp [hq]

/-- C3 counterexample: deleting a comment that does not exist (id 999 is no
comment of `db0`) as an existing, authenticated user answers 403 — the same
"Not allowed or comment not found" outcome as a permission deny — and not the
404 the claim requires for an absent resource. -/
theorem C3_counterexample_absent_comment_delete_is_403_not_404 :
    (db0.comments.all (fun c => !(c.id == 999))) = true ∧
    deleteCommentApi db0 dianaInfo "session" 999 = (403, db0) ∧
    (403 : Nat) ≠ 404 := by
  refine ⟨by decide, ?_, by decide⟩
  decide

/-- C3 amended: at the edit/delete endpoints an absent resource and a policy
deny are NOT distinguishable: whenever no row satisfies both the id match and
the ownership-or-elevation match — because the comment or post is absent, or
because it exists but the requester is neither elevated nor its owner — the
route answers the same 403 ("Not allowed or ... not found"); 404 is not
produced by these paths. -/
theorem C3_amended_absent_and_denied_collapse_to_403
    (db : DB) (u : UserInfo) (m : String) (cid pid : Nat) (t : String)
    (hc : db.comments.all
      (fun c => !(c.id == cid && (isAdminTotp m u || c.userId == some u.id))) = true)
    (hp : db.posts.all
      (fun p => !(p.id == pid && (isAdminTotp m u || p.userId == u.id))) = true) :
    (deleteCommentApi db u m cid).1 = 403 ∧
    (updateCommentApi db u m cid t).1 = 403 ∧
    (deletePostApi db u m pid).1 = 403 := by
  have hcf : db.comments.filter
      (fun c => c.id == cid && (isAdminTotp m u || c.userId == some u.id)) = [] := by
    rw [List.filter_eq_nil_iff]
    intro c hcMem
    have h1 := (List.all_eq_true.mp hc) c hcMem
    rw [Bool.not_eq_true'] at h1
    simp [h1]
  have hpf : db.posts.filter
      (fun p => p.id == pid && (isAdminTotp m u || p.userId == u.id)) = [] := by
    rw [List.filter_eq_nil_iff]
    intro p hpMem
    have h1 := (List.all_eq_true.mp hp) p hpMem
    rw [Bool.not_eq_true'] at h1
    simp [h1]
  refine ⟨?_, ?_, ?_⟩
  · simp [deleteCommentApi, deleteComment, hcf]
  · simp [updateCommentApi, updateComment, hcf]
  · simp [deletePostApi, deletePost, hpf]

/-- Witness for the amended C3: in `db0` nothing has id 999, and diana's
delete and edit requests for comment 999 and post 999 all answer 403. -/
theorem C3_amended_witness :
    (deleteCommentApi db0 dianaInfo "session" 999).1 = 403 ∧
    (updateCommentApi db0 dianaInfo "session" 999 "x").1 = 403 ∧
    (deletePostApi db0 dianaInfo "session" 999).1 = 403 :=
  C3_amended_absent_and_denied_collapse_to_403 db0 dianaInfo "session" 999 999 "x"
    (by decide) (by decide)

/-- C4: for an existing comment `c` and an existing post `p` (each the unique
row with its id), an edit or delete request by session user `u` succeeds
(status 200) exactly when the session is elevated (admin with completed
second factor, `isAdminTotp`) or `u` owns the resource; otherwise it is
denied. -/
theorem C4_edit_delete_iff_elevated_or_owner
    (db : DB) (u : UserInfo) (m : String) (c : Comment) (p : Post) (t : String)
    (hc : db.comments.filter (fun x => x.id == c.id) = [c])
    (hp : db.posts.filter (fun x => x.id == p.id) = [p]) :
    ((updateCommentApi db u m c.id t).1 = 200 ↔
      (isAdminTotp m u = true ∨ c.userId = some u.id)) ∧
    ((deleteCommentApi db u m c.id).1 = 200 ↔
      (isAdminTotp m u = true ∨ c.userId = some u.id)) ∧
    ((deletePostApi db u m p.id).1 = 200 ↔
      (isAdminTotp m u = true ∨ p.userId = u.id)) := by
  have hcf := filter_and_singleton
    (fun x => isAdminTotp m u || x.userId == some u.id) hc
  have hpf := filter_and_singleton
    (fun x => isAdminTotp m u || x.userId == u.id) hp
  refine ⟨?_, ?_, ?_⟩
  · rw [show (updateCommentApi db u m c.id t).1
        = (if (db.comments.filter
            (fun x => x.id == c.id && (isAdminTotp m u || x.userId == some u.id))).length == 0
          then 403 else 200) from rfl, hcf]
    cases hcond : (isAdminTotp m u || c.userId == some u.id) <;>
      simp_all [Bool.or_eq_true, beq_iff_eq]
  · rw [show (deleteCommentApi db u m c.id).1
        = (if (db.comments.filter
            (fun x => x.id == c.id && (isAdminTotp m u || x.userId == some u.id))).length == 0
          then 403 else 200) from rfl, hcf]
    cases hcond : (isAdminTotp m u || c.userId == some u.id) <;>
      simp_all [Bool.or_eq_true, beq_iff_eq]
  · rw [show (deletePostApi db u m p.id).1
        = (if (db.posts.filter
            (fun x => x.id == p.id && (isAdminTotp m u || x.userId == u.id))).length == 0
          then 403 else 200) from rfl, hpf]
    cases hcond : (isAdminTotp m u || p.userId == u.id) <;>
      simp_all [Bool.or_eq_true, beq_iff_eq]

/-- Witness for C4: diana edits her own comment `commentC` without elevation
and succeeds. -/
theorem C4_witness :
    (updateCommentApi db0 dianaInfo "session" commentC.id "edited").1 = 200 :=
  (C4_edit_delete_iff_elevated_or_owner db0 dianaInfo "session" commentC postB "edited"
    (by decide) (by decide)).1.mpr (Or.inr (by decide))

end Forum

namespace Forum

/-- The list the comment-limit check measures (`userId` argument omitted, so
`undefined`) has exactly one element per comment of the post: the anonymous
filter is not applied. -/
theorem length_getComments_undef (db : DB) (pid : Nat) :
    (getCommentsByPostId db pid ReqUser.undef).length
      = (db.comments.filter (fun c => c.postId == pid)).length := by
  simp [getCommentsByPostId, List.length_mergeSort]

/-- C5: with `getPost db pid = some p`, a comment-creation request for a post
with `maxComments = N` is answered 201 exactly while the post holds fewer
than `N` comments, and once it holds `N` or more it is answered 403 with the
state unchanged; with `maxComments = NULL` the limit check never rejects. -/
theorem C5_comment_limit (db : DB) (pid : Nat) (p : Post) (requester : Option Nat)
    (t now : String) (newId : Nat) (hp : getPost db pid = some p) :
    (∀ N, p.maxComments = some N →
      (((createCommentApi db requester pid t newId now).1 = 201) ↔
        (db.comments.filter (fun c => c.postId == pid)).length < N) ∧
      (N ≤ (db.comments.filter (fun c => c.postId == pid)).length →
        createCommentApi db requester pid t newId now = (403, db))) ∧
    (p.maxComments = none →
      (createCommentApi db requester pid t newId now).1 = 201) := by
  have hred : createCommentApi db requester pid t newId now
      = (if (match p.maxComments with
             | some m => decide (m ≤ (getCommentsByPostId db pid ReqUser.undef).length)
             | none => false)
         then (403, db)
         else (201, { db with comments := db.comments ++
           [{ id := newId, text := t, date := now, userId := requester, postId := pid }] })) := by
    unfold createCommentApi
    rw [hp]
  have hlen := length_getComments_undef db pid
  constructor
  · intro N hN
    have hred2 : createCommentApi db requester pid t newId now
        = (if decide (N ≤ (getCommentsByPostId db pid ReqUser.undef).length) = true
           then (403, db)
           else (201, { db with comments := db.comments ++
             [{ id := newId, text := t, date := now, userId := requester, postId := pid }] })) := by
      rw [hred, hN]
    rw [hred2]
    simp only [decide_eq_true_eq, hlen]
    constructor
    · by_cases hle : N ≤ (List.filter (fun c => c.postId == pid) db.comments).length
      · rw [if_pos hle]
        exact ⟨fun h403 => absurd h403 (by simp), fun hlt => absurd hlt (by omega)⟩
      · rw [if_neg hle]
        exact ⟨fun _ => by omega, fun _ => rfl⟩
    · intro hge
      rw [if_pos hge]
  · intro hNone
    rw [hred, hNone]
    simp

end Forum

namespace Forum

/-- Witness for C5: `postB` caps comments at 1 and already holds one
(`commentC`), so an anonymous creation attempt is answered 403 and the
database is unchanged. -/
theorem C5_witness :
    createCommentApi db0 none 2 "one more" 99 "2020-01-01 00:00:00" = (403, db0) :=
  ((C5_comment_limit db0 2 postB none "one more" "2020-01-01 00:00:00" 99
    (by decide)).1 1 rfl).2 (by decide)

/-- C10: the comment-count ceiling check measures ALL comments of the post —
the list it fetches (with the `userId` argument omitted, hence `undefined`
and not `null`) carries no anonymous-only filter — so the creation verdict is
the same for every requester, and an anonymous requester's creation is
rejected as soon as the TOTAL count reaches the post's maximum. -/
theorem C10_ceiling_counts_all_comments (db : DB) (pid : Nat) (p : Post)
    (t now : String) (newId : Nat) (hp : getPost db pid = some p) :
    ((getCommentsByPostId db pid ReqUser.undef).length
       = (db.comments.filter (fun c => c.postId == pid)).length) ∧
    (∀ r₁ r₂ : Option Nat,
      (createCommentApi db r₁ pid t newId now).1
        = (createCommentApi db r₂ pid t newId now).1) ∧
    (∀ N, p.maxComments = some N →
      (((createCommentApi db none pid t newId now).1 = 403) ↔
        N ≤ (db.comments.filter (fun c => c.postId == pid)).length)) := by
  have hred : ∀ r : Option Nat, createCommentApi db r pid t newId now
      = (if (match p.maxComments with
             | some m => decide (m ≤ (getCommentsByPostId db pid ReqUser.undef).length)
             | none => false)
         then (403, db)
         else (201, { db with comments := db.comments ++
           [{ id := newId, text := t, date := now, userId := r, postId := pid }] })) := by
    intro r
    unfold createCommentApi
    rw [hp]
  refine ⟨length_getComments_undef db pid, ?_, ?_⟩
  · intro r₁ r₂
    rw [hred r₁, hred r₂]
    cases hcond : (match p.maxComments with
        | some m => decide (m ≤ (getCommentsByPostId db pid ReqUser.undef).length)
        | none => false) <;> simp [hcond]
  · intro N hN
    have hred2 : createCommentApi db none pid t newId now
        = (if decide (N ≤ (getCommentsByPostId db pid ReqUser.undef).length) = true
           then (403, db)
           else (201, { db with comments := db.comments ++
             [{ id := newId, text := t, date := now, userId := none, postId := pid }] })) := by
      rw [hred none, hN]
    rw [hred2]
    simp only [decide_eq_true_eq, length_getComments_undef db pid]
    by_cases hle : N ≤ (List.filter (fun c => c.postId == pid) db.comments).length
    · rw [if_pos hle]
      exact ⟨fun _ => hle, fun _ => rfl⟩
    · rw [if_neg hle]
      exact ⟨fun h201 => absurd h201 (by simp), fun hge => absurd hge hle⟩

/-- Witness for C10: in `db0` the anonymous creation attempt on `postB`
(limit 1, one comment in total) is rejected. -/
theorem C10_witness :
    (createCommentApi db0 none 2 "x" 99 "2020-01-01 00:00:00").1 = 403 :=
  ((C10_ceiling_counts_all_comments db0 2 postB "x" "2020-01-01 00:00:00" 99
    (by decide)).2.2 1 rfl).mpr (by decide)

/-- C9: the credential verifier returns the stored user record (projected to
`{id, username, admin, secret}`) exactly when the username matches a stored
row and the salted hash of the supplied password equals the stored hash; an
unknown username and a wrong password both yield the single failure value
`none` (the JS `resolve(false)`), indistinguishable to the caller. -/
theorem C9_credential_verifier (scrypt : String → String → String) (db : DB)
    (username password : String) :
    (db.users.find? (fun u => u.username == username) = none →
      getUser scrypt db username password = none) ∧
    (∀ row, db.users.find? (fun u => u.username == username) = some row →
      (scrypt password row.salt ≠ row.password →
        getUser scrypt db username password = none) ∧
      (scrypt password row.salt = row.password →
        getUser scrypt db username password = some (userInfoOf row))) := by
  constructor
  · intro h
    unfold getUser
    rw [h]
  · intro row h
    constructor
    · intro hne
      unfold getUser
      rw [h]
      simp [hne]
    · intro heq
      unfold getUser
      rw [h]
      simp [heq]

/-- Witness for C9: with a concrete stand-in hash, the matching pair yields
the user record and both failure causes yield the same `none`. -/
theorem C9_witness :
    getUser hashFn dbAuth "alice" "secret1" = some (userInfoOf userA) ∧
    getUser hashFn dbAuth "alice" "wrong" = none ∧
    getUser hashFn dbAuth "bob" "secret1" = none :=
  ⟨((C9_credential_verifier hashFn dbAuth "alice" "secret1").2 userA (by decide)).2 (by decide),
   ((C9_credential_verifier hashFn dbAuth "alice" "wrong").2 userA (by decide)).1 (by decide),
   (C9_credential_verifier hashFn dbAuth "bob" "secret1").1 (by decide)⟩

end Forum

namespace Forum

/-- C6: the comment list served for a post contains, for an anonymous
requester, exactly the rows built from the post's comments with a null
owning user; for an authenticated requester, exactly the rows built from all
of the post's comments; consequently every comment id visible anonymously is
also visible to any authenticated requester. -/
theorem C6_anonymous_sees_subset_of_authenticated (db : DB) (pid uid : Nat) :
    (∀ e, e ∈ getCommentsByPostId db pid ReqUser.null ↔
      ∃ c ∈ db.comments, c.postId = pid ∧ c.userId = none ∧
        commentView db ReqUser.null c = e) ∧
    (∀ e, e ∈ getCommentsByPostId db pid (ReqUser.id uid) ↔
      ∃ c ∈ db.comments, c.postId = pid ∧
        commentView db (ReqUser.id uid) c = e) ∧
    (∀ i, i ∈ (getCommentsByPostId db pid ReqUser.null).map (fun e => e.id) →
      i ∈ (getCommentsByPostId db pid (ReqUser.id uid)).map (fun e => e.id)) := by
  have hnull : ∀ e, e ∈ getCommentsByPostId db pid ReqUser.null ↔
      ∃ c ∈ db.comments, c.postId = pid ∧ c.userId = none ∧
        commentView db ReqUser.null c = e := by
    intro e
    unfold getCommentsByPostId
    rw [List.mem_map]
    constructor
    · rintro ⟨a, ha, rfl⟩
      obtain ⟨hmem, hpred⟩ := List.mem_filter.mp (List.mem_mergeSort.mp ha)
      rw [Bool.and_eq_true] at hpred
      exact ⟨a, hmem, by simpa using hpred.1, by simpa using hpred.2, rfl⟩
    · rintro ⟨c, hc, hpost, hanon, rfl⟩
      refine ⟨c, List.mem_mergeSort.mpr (List.mem_filter.mpr ⟨hc, ?_⟩), rfl⟩
      simp [hpost, hanon]
  have hauth : ∀ e, e ∈ getCommentsByPostId db pid (ReqUser.id uid) ↔
      ∃ c ∈ db.comments, c.postId = pid ∧
        commentView db (ReqUser.id uid) c = e := by
    intro e
    unfold getCommentsByPostId
    rw [List.mem_map]
    constructor
    · rintro ⟨a, ha, rfl⟩
      obtain ⟨hmem, hpred⟩ := List.mem_filter.mp (List.mem_mergeSort.mp ha)
      rw [Bool.and_eq_true] at hpred
      exact ⟨a, hmem, by simpa using hpred.1, rfl⟩
    · rintro ⟨c, hc, hpost, rfl⟩
      refine ⟨c, List.mem_mergeSort.mpr (List.mem_filter.mpr ⟨hc, ?_⟩), rfl⟩
      simp [hpost]
  refine ⟨hnull, hauth, ?_⟩
  intro i hi
  rw [List.mem_map] at hi ⊢
  obtain ⟨e, he, hid⟩ := hi
  obtain ⟨c, hc, hpost, _, hview⟩ := (hnull e).mp he
  refine ⟨commentView db (ReqUser.id uid) c, (hauth _).mpr ⟨c, hc, hpost, rfl⟩, ?_⟩
  rw [← hid, ← hview]
  rfl

/-- C8: when `DELETE /api/posts/:id` succeeds (status 200), the resulting
state holds no comment whose parent is the deleted post and no interesting
flag on any comment that referenced it: the `ON DELETE CASCADE` chain of
db.sql removes the post's comments and those comments' flags. -/
theorem C8_post_delete_cascades (db : DB) (u : UserInfo) (m : String) (pid : Nat)
    (h : (deletePostApi db u m pid).1 = 200) :
    (∀ c ∈ (deletePostApi db u m pid).2.comments, c.postId ≠ pid) ∧
    (∀ f ∈ (deletePostApi db u m pid).2.flags,
      ∀ c ∈ db.comments, c.postId = pid → f.commentId ≠ c.id) := by
  have hstatus : (deletePostApi db u m pid).1
      = (if ((db.posts.filter
          (fun p => p.id == pid && (isAdminTotp m u || p.userId == u.id))).length == 0)
        then 403 else 200) := rfl
  have hcomments : (deletePostApi db u m pid).2.comments
      = db.comments.filter (fun c =>
          !(((db.posts.filter
              (fun p => p.id == pid && (isAdminTotp m u || p.userId == u.id))).map
              (fun p => p.id)).contains c.postId)) := rfl
  have hflags : (deletePostApi db u m pid).2.flags
      = db.flags.filter (fun f =>
          !(((db.comments.filter (fun c =>
              ((db.posts.filter
                (fun p => p.id == pid && (isAdminTotp m u || p.userId == u.id))).map
                (fun p => p.id)).contains c.postId)).map
              (fun c => c.id)).contains f.commentId)) := rfl
  rw [hstatus] at h
  have hne : (db.posts.filter
      (fun p => p.id == pid && (isAdminTotp m u || p.userId == u.id))) ≠ [] := by
    intro hnil
    rw [hnil] at h
    simp at h
  have hpidmem : pid ∈ (db.posts.filter
      (fun p => p.id == pid && (isAdminTotp m u || p.userId == u.id))).map
      (fun p => p.id) := by
    obtain ⟨p0, hp0⟩ := List.exists_mem_of_ne_nil _ hne
    obtain ⟨-, hp0pred⟩ := List.mem_filter.mp hp0
    rw [Bool.and_eq_true] at hp0pred
    exact List.mem_map.mpr ⟨p0, hp0, by simpa using hp0pred.1⟩
  constructor
  · intro c hcMem heq
    rw [hcomments] at hcMem
    obtain ⟨-, hpred⟩ := List.mem_filter.mp hcMem
    rw [heq] at hpred
    rw [Bool.not_eq_true'] at hpred
    have : ((db.posts.filter
        (fun p => p.id == pid && (isAdminTotp m u || p.userId == u.id))).map
        (fun p => p.id)).contains pid = true := by
      simpa using hpidmem
    rw [this] at hpred
    cases hpred
  · intro f hfMem c hcMem hcpid heq
    rw [hflags] at hfMem
    obtain ⟨-, hpred⟩ := List.mem_filter.mp hfMem
    rw [heq] at hpred
    rw [Bool.not_eq_true'] at hpred
    have hcRem : c ∈ db.comments.filter (fun c =>
        ((db.posts.filter
          (fun p => p.id == pid && (isAdminTotp m u || p.userId == u.id))).map
          (fun p => p.id)).contains c.postId) := by
      refine List.mem_filter.mpr ⟨hcMem, ?_⟩
      rw [hcpid]
      simpa using hpidmem
    have hidmem : c.id ∈ (db.comments.filter (fun c =>
        ((db.posts.filter
          (fun p => p.id == pid && (isAdminTotp m u || p.userId == u.id))).map
          (fun p => p.id)).contains c.postId)).map (fun c => c.id) :=
      List.mem_map.mpr ⟨c, hcRem, rfl⟩
    have : ((db.comments.filter (fun c =>
        ((db.posts.filter
          (fun p => p.id == pid && (isAdminTotp m u || p.userId == u.id))).map
          (fun p => p.id)).contains c.postId)).map (fun c => c.id)).contains c.id = true := by
      simpa using hidmem
    rw [this] at hpred
    cases hpred

/-- Witness for C8: carl deletes his own `postB` and succeeds; `commentA`,
whose parent is `postA`, survives the cascade with its parent intact. -/
theorem C8_witness : commentA.postId ≠ 2 :=
  (C8_post_delete_cascades db0 carlInfo "session" 2 (by decide)).1 commentA (by decide)

end Forum
